import Mathlib

/-!
Verification development for the TelegramObsidianBridge pipeline.

The Python sources are shallowly embedded: pure string manipulation is
translated to Lean functions over `String`/`List Char`; filesystem and
subprocess effects are made explicit by passing an environment record that
fixes the outcome of each effectful primitive, and exception flow is
modelled with `Except`.
-/

/-- Boolean test that the character list `s` starts with the pattern `pat`
(embedding of Python `str.startswith` at the character level). -/
def listStarts : List Char → List Char → Bool
  | [], _ => true
  | _ :: _, [] => false
  | a :: as, b :: bs => a == b && listStarts as bs

/-- Boolean substring test on character lists (embedding of Python's
`in` operator on strings). -/
def listHasSub (pat : List Char) : List Char → Bool
  | [] => pat.isEmpty
  | c :: cs => listStarts pat (c :: cs) || listHasSub pat cs

/-- Python `s.startswith(pat)`. -/
def strStarts (s pat : String) : Bool :=
  listStarts pat.data s.data

/-- Python `pat in s` (substring containment). -/
def strHasSub (s pat : String) : Bool :=
  listHasSub pat.data s.data

/-- Message-kind decision of `TelegramCaptureBot.handle_text`
(src/telegram_bot/bot.py): the if/elif cascade assigning `message_type`. -/
def classify (text : String) : String :=
  if strStarts text "TODO:" || strStarts text "Task:" then "todo"
  else if strStarts text "IDEA:" || strHasSub text "💡" then "idea"
  else if strStarts text "http" || strHasSub text "www." then "link"
  else "note"

/-- Decimal digits of `n`, least significant first, driven by explicit fuel
(the fuel `n` itself is always sufficient for `n ≥ 1`). -/
def digitsRev (fuel : Nat) (n : Nat) : List Nat :=
  match fuel with
  | 0 => []
  | f + 1 => if n < 10 then [n] else n % 10 :: digitsRev f (n / 10)

/-- Value of a little-endian digit list in base 10. -/
def ofDigits10 : List Nat → Nat
  | [] => 0
  | d :: ds => d + 10 * ofDigits10 ds

/-- Decimal rendering of a natural number, as Python renders integers into
f-strings. -/
def pyRepr (n : Nat) : String :=
  if n = 0 then "0" else String.mk ((digitsRev n n).reverse.map Nat.digitChar)

/-- Zero-padded two-digit field, as produced by `strftime` directives such
as `%m`, `%d`, `%H`, `%M`, `%S`. -/
def pad2 (n : Nat) : String :=
  if n < 10 then "0" ++ pyRepr n else pyRepr n

/-- Zero-padded four-digit field, as produced by the `%Y` directive. -/
def pad4 (n : Nat) : String :=
  if n < 10 then "000" ++ pyRepr n
  else if n < 100 then "00" ++ pyRepr n
  else if n < 1000 then "0" ++ pyRepr n
  else pyRepr n

/-- Clock reading returned by `datetime.now()`, at the second resolution
actually rendered by the code's format strings. -/
structure PyDateTime where
  year : Nat
  month : Nat
  day : Nat
  hour : Nat
  minute : Nat
  second : Nat

/-- Python `datetime.isoformat()` restricted to second resolution. -/
def isoformat (t : PyDateTime) : String :=
  pad4 t.year ++ "-" ++ pad2 t.month ++ "-" ++ pad2 t.day ++ "T" ++
    pad2 t.hour ++ ":" ++ pad2 t.minute ++ ":" ++ pad2 t.second

/-- Python `strftime("%Y-%m-%d %H:%M")`. -/
def fmtDateHM (t : PyDateTime) : String :=
  pad4 t.year ++ "-" ++ pad2 t.month ++ "-" ++ pad2 t.day ++ " " ++
    pad2 t.hour ++ ":" ++ pad2 t.minute

/-- Python `strftime("%Y%m%d_%H%M%S")`. -/
def fmtCompact (t : PyDateTime) : String :=
  pad4 t.year ++ pad2 t.month ++ pad2 t.day ++ "_" ++
    pad2 t.hour ++ pad2 t.minute ++ pad2 t.second

/-- Python slice `s[:n]` (by characters). -/
def pyTake (n : Nat) (s : String) : String :=
  String.mk (s.data.take n)

/-- Embedding of `format_content_for_obsidian` (src/mcp_server/telegram_mcp.py).
The Python body reads the clock via `datetime.now()`; that hidden input is
made explicit as the `now` argument. -/
def format_content_for_obsidian (content content_type additional_context : String)
    (now : PyDateTime) : String :=
  if content_type == "todo" then
    "---\ntype: todo\ncreated: " ++ isoformat now ++
      "\nstatus: open\ntags: [telegram, todo]\n---\n\n# TODO: " ++
      pyTake 50 content ++ "...\n\n## Task Description\n" ++ content ++
      "\n\n## Context & Analysis\n" ++ additional_context ++
      "\n\n## Action Steps\n- [ ] Review and break down task\n- [ ] Set priority and deadline\n- [ ] Add to appropriate project\n\n---\n*Captured from Telegram at " ++
      fmtDateHM now ++ "*\n"
  else if content_type == "voice_transcription" then
    "---\ntype: voice-note\ncreated: " ++ isoformat now ++
      "\ntags: [telegram, voice, transcription]\n---\n\n# Voice Note - " ++
      fmtDateHM now ++ "\n\n## Transcription\n" ++ content ++
      "\n\n## Key Points\n" ++ additional_context ++
      "\n\n## Follow-up Actions\n- [ ] Review and extract action items\n- [ ] Link to relevant projects\n- [ ] Archive or process further\n\n---\n*Voice message transcribed from Telegram*\n"
  else if content_type == "idea" then
    "---\ntype: idea\ncreated: " ++ isoformat now ++
      "\ntags: [telegram, idea]\n---\n\n# 💡 Idea: " ++
      pyTake 50 content ++ "...\n\n## Description\n" ++ content ++
      "\n\n## Initial Thoughts\n" ++ additional_context ++
      "\n\n## Next Steps\n- [ ] Evaluate feasibility\n- [ ] Research similar concepts\n- [ ] Create action plan if viable\n\n---\n*Captured from Telegram at " ++
      fmtDateHM now ++ "*\n"
  else
    "---\ntype: note\ncreated: " ++ isoformat now ++
      "\ntags: [telegram, quick-capture]\n---\n\n# Quick Note - " ++
      fmtDateHM now ++ "\n\n" ++ content ++
      "\n\n## Additional Context\n" ++ additional_context ++
      "\n\n---\n*Captured from Telegram*\n"

/-- Record filename chosen by `TelegramCaptureBot.handle_text`
(src/telegram_bot/bot.py): the f-string
`f"{message_type}_{timestamp.strftime('%Y%m%d_%H%M%S')}.json"` with
`message_type` computed by the classification cascade. -/
def handle_text_filename (text : String) (now : PyDateTime) : String :=
  classify text ++ "_" ++ fmtCompact now ++ ".json"

/-- Python `str.strip()` (whitespace trim at both ends). -/
def pyStrip (s : String) : String :=
  String.mk
    (((s.data.dropWhile Char.isWhitespace).reverse.dropWhile Char.isWhitespace).reverse)

/-- Exceptions that the transcription module can raise. -/
inductive PyExc where
  | calledProcessError
  | fileNotFoundError
deriving DecidableEq

/-- Outcomes of the external processes and filesystem probes performed by
`WhisperTranscriber.transcribe` (src/transcription/whisper_transcriber.py). -/
structure TransEnv where
  suffixIsOgg : Bool
  ffmpegMissing : Bool
  ffmpegFails : Bool
  whisperFails : Bool
  txtExists : Bool
  txtContent : String

/-- Embedding of `WhisperTranscriber.convert_ogg_to_wav`: both the
`CalledProcessError` from a non-zero FFmpeg exit and the
`FileNotFoundError` from a missing FFmpeg binary are logged and re-raised. -/
def convert_ogg_to_wav (e : TransEnv) : Except PyExc Unit :=
  if e.ffmpegMissing then .error .fileNotFoundError
  else if e.ffmpegFails then .error .calledProcessError
  else .ok ()

/-- Embedding of `WhisperTranscriber.transcribe`: the OGG conversion runs
before the try block, so its exception propagates; a non-zero engine exit
is caught and yields `None`; a missing output artifact yields `None`; on
success the artifact's text is returned stripped. -/
def transcribe (e : TransEnv) : Except PyExc (Option String) :=
  match (if e.suffixIsOgg then convert_ogg_to_wav e else .ok ()) with
  | .error ex => .error ex
  | .ok _ =>
      if e.whisperFails then .ok none
      else if e.txtExists then .ok (some (pyStrip e.txtContent))
      else .ok none

/-- Primitive effectful step that either succeeds or raises. -/
def pyStep (fails : Bool) : Except Unit Unit :=
  if fails then .error () else .ok ()

/-- Result of invoking a stage handler's per-record callback: whether it
returned or let an exception escape, and whether the source record is
still in its stage directory afterwards. -/
inductive HOutcome where
  | returns (srcInStage : Bool)
  | raises (srcInStage : Bool)
deriving DecidableEq

/-- Outcomes of the effectful steps inside `TextProcessor.process_text_file`
(src/services/text_processor.py). -/
structure TextEnv where
  loadFails : Bool
  writeFails : Bool
  archiveRenameFails : Bool

/-- Embedding of `TextProcessor._archive_text_file`: the rename into the
archive sits in its own try/except, so a failure is logged and the source
stays in `incoming`; on success the source has been renamed away. -/
def archive_text_file (e : TextEnv) : Bool :=
  if e.archiveRenameFails then true else false

/-- Embedding of `TextProcessor.process_text_file`: load, write to
`processed` and archive run inside one try/except whose handler only logs,
and the archive helper guards its own rename. -/
def process_text_file (e : TextEnv) : HOutcome :=
  match (do
      pyStep e.loadFails
      pyStep e.writeFails
      pure (archive_text_file e) : Except Unit Bool) with
  | .error _ => .returns true
  | .ok remains => .returns remains

/-- Outcomes of the effectful steps inside `VoiceProcessor.process_voice_file`
(src/services/voice_processor.py). `transcribeOutcome` abstracts the call
into the transcriber: it may raise, return a transcription, or return
`None`. -/
structure VoiceEnv where
  metaExists : Bool
  metaLoadFails : Bool
  transcribeOutcome : Except Unit (Option String)
  outputWriteFails : Bool
  archiveRenameFails : Bool

/-- Embedding of `VoiceProcessor._archive_voice_files`: the renames sit in
their own try/except, so a failure is logged and the audio stays in
`voices`. -/
def archive_voice_files (e : VoiceEnv) : Bool :=
  if e.archiveRenameFails then true else false

/-- Embedding of `VoiceProcessor.process_voice_file`: there is no
try/except around metadata loading, transcription or the output write, so
an exception in any of them escapes the `on_created` callback; a `None`
transcription is logged and the source left in place. -/
def process_voice_file (e : VoiceEnv) : HOutcome :=
  match (do
      pyStep (e.metaExists && e.metaLoadFails)
      e.transcribeOutcome : Except Unit (Option String)) with
  | .error _ => .raises true
  | .ok none => .returns true
  | .ok (some _) =>
      match pyStep e.outputWriteFails with
      | .error _ => .raises true
      | .ok _ => .returns (archive_voice_files e)

/-- Outcomes of the effectful steps inside `ObsidianFileManager.move_to_obsidian`
(src/obsidian_integration/file_manager.py). -/
structure PubEnv where
  copyFails : Bool
  mkdirFails : Bool
  renameFails : Bool

/-- Result of the Vault Publisher's per-document handler. -/
structure PubResult where
  raised : Bool
  copied : Bool
  srcInReady : Bool
deriving DecidableEq

/-- Embedding of `ObsidianFileManager.move_to_obsidian`: `shutil.copy2`,
the archive `mkdir` and the source rename run inside one try/except whose
handler only logs; the copy precedes the archive steps. -/
def move_to_obsidian (e : PubEnv) : PubResult :=
  match (do
      pyStep e.copyFails
      pyStep e.mkdirFails
      pyStep e.renameFails : Except Unit Unit) with
  | .ok _ => { raised := false, copied := true, srcInReady := false }
  | .error _ => { raised := false, copied := !e.copyFails, srcInReady := true }

/-- Python `s.endswith(pat)`, used to embed the `*.json` glob. -/
def strEnds (s pat : String) : Bool :=
  listStarts pat.data.reverse s.data.reverse

/-- Observable events of a `start_monitoring` call: processing a pending
record, or handing control to the filesystem-event watcher. -/
inductive MonEvent where
  | processed (name : String)
  | watchStarted
deriving DecidableEq

/-- Embedding of `TextProcessor.start_monitoring`: it first calls
`process_existing_files`, which sweeps `incoming` for `*.json` entries and
processes each, and only then schedules and starts the observer. -/
def text_start_monitoring (pending : List String) : List MonEvent :=
  ((pending.filter (fun n => strEnds n ".json")).map MonEvent.processed) ++
    [MonEvent.watchStarted]

/-- Embedding of `VoiceProcessor.start_monitoring`: it schedules and starts
the observer immediately; no sweep of existing files precedes watching. -/
def voice_start_monitoring (_pending : List String) : List MonEvent :=
  [MonEvent.watchStarted]

/-- Embedding of `ObsidianFileManager.start_monitoring`: it schedules and
starts the observer immediately; no sweep of existing files precedes
watching. -/
def file_manager_start_monitoring (_pending : List String) : List MonEvent :=
  [MonEvent.watchStarted]

/-- Candidate archive filename `f"{stem}_{counter}{suffix}"` built by
`move_processed_file` (src/mcp_server/telegram_mcp.py). -/
def candName (stem sfx : String) (c : Nat) : String :=
  stem ++ "_" ++ pyRepr c ++ sfx

/-- Embedding of the `while dest.exists()` loop of `move_processed_file`:
starting at counter `c`, try successive candidate names until one is not
among the existing archive entries. The fuel argument makes the recursion
structural; `existing.length + 1` steps always suffice. -/
def destLoop (existing : List String) (stem sfx : String) : Nat → Nat → Option String
  | 0, _ => none
  | f + 1, c =>
      if candName stem sfx c ∈ existing then destLoop existing stem sfx f (c + 1)
      else some (candName stem sfx c)

/-- Embedding of `move_processed_file`: a missing source is logged and the
function returns without effect (`none`); otherwise the destination starts
as the source's own name and, while taken, gets `_1`, `_2`, ... counter
suffixes on the stem. The returned name is the rename target. -/
def move_processed_file : Bool → List String → String → String → String → Option String
  | false, _, _, _, _ => none
  | true, existing, name, stem, sfx =>
      if name ∈ existing then destLoop existing stem sfx (existing.length + 1) 1
      else some name

/-- Stored record as read back by the MCP server: its `type` field and its
`timestamp` field (an ISO-format string, compared as a string by the sort
key). -/
structure PendingRec where
  rtype : String
  timestamp : String
deriving DecidableEq

/-- Filter of `get_pending_content`: keep a record when the requested type
is `"all"` or matches the record's `type` field. -/
def recMatches (content_type : String) (r : PendingRec) : Bool :=
  content_type == "all" || r.rtype == content_type

/-- Sort relation of `pending_files.sort(key=..., reverse=True)`: newer
timestamps first, comparing timestamp strings lexicographically by code
point exactly as Python compares `str` keys. -/
def newestFirst (a b : PendingRec) : Prop :=
  b.timestamp.data ≤ a.timestamp.data

instance : DecidableRel newestFirst :=
  fun a b => inferInstanceAs (Decidable (b.timestamp.data ≤ a.timestamp.data))

instance : IsTotal PendingRec newestFirst :=
  ⟨fun a b => (le_total b.timestamp.data a.timestamp.data).imp id id⟩

instance : IsTrans PendingRec newestFirst :=
  ⟨fun _ _ _ h1 h2 => le_trans h2 h1⟩

/-- Embedding of `get_pending_content` (src/mcp_server/telegram_mcp.py):
records of both the `incoming` and `processed` directories are filtered by
the requested type, sorted newest-first by their timestamp string, and the
result carries the total matching count together with the first 10 sorted
items. -/
def get_pending_content (content_type : String)
    (incoming processed : List PendingRec) : Nat × List PendingRec :=
  (((incoming ++ processed).filter (recMatches content_type)).length,
    (List.insertionSort newestFirst
      ((incoming ++ processed).filter (recMatches content_type))).take 10)

/-- Strings with equal character data are equal. -/
theorem string_data_inj {s t : String} (h : s.data = t.data) : s = t := by
  cases s
  cases t
  exact congrArg String.mk h

/-- An append whose left part is non-empty is non-empty. -/
theorem append_ne_empty_left (s t : String) (h : s ≠ "") : s ++ t ≠ "" := by
  intro he
  apply h
  apply string_data_inj
  have hd := congrArg String.data he
  rw [String.data_append] at hd
  have h0 : s.data = [] := (List.append_eq_nil.mp hd).1
  exact h0.trans rfl

/-- Every entry produced by `digitsRev` is a decimal digit. -/
theorem digitsRev_all_lt10 (fuel : Nat) :
    ∀ n, ∀ d ∈ digitsRev fuel n, d < 10 := by
  induction fuel with
  | zero => intro n d hd; simp [digitsRev] at hd
  | succ f ih =>
      intro n d hd
      rw [digitsRev] at hd
      split at hd
      · next hlt => rw [List.mem_singleton] at hd; omega
      · rcases List.mem_cons.mp hd with h | h
        · subst h; omega
        · exact ih (n / 10) d h

/-- With sufficient fuel, `digitsRev` is a section of `ofDigits10` on
positive numbers. -/
theorem ofDigits10_digitsRev (fuel : Nat) :
    ∀ n, 1 ≤ n → n ≤ fuel → ofDigits10 (digitsRev fuel n) = n := by
  induction fuel with
  | zero => intro n h1 h2; omega
  | succ f ih =>
      intro n h1 h2
      rw [digitsRev]
      split
      · simp [ofDigits10]
      · next hge =>
          have hd1 : 1 ≤ n / 10 := by omega
          have hdf : n / 10 ≤ f := by
            have := Nat.div_lt_self (show 0 < n by omega) (show 1 < 10 by omega)
            omega
          rw [ofDigits10, ih (n / 10) hd1 hdf]
          omega

/-- Decimal digit characters determine the digit. -/
theorem digitChar_inj : ∀ a < 10, ∀ b < 10, Nat.digitChar a = Nat.digitChar b → a = b := by
  decide

/-- Mapping `Nat.digitChar` over digit lists is injective. -/
theorem map_digitChar_inj :
    ∀ (l1 l2 : List Nat), (∀ d ∈ l1, d < 10) → (∀ d ∈ l2, d < 10) →
      l1.map Nat.digitChar = l2.map Nat.digitChar → l1 = l2
  | [], [], _, _, _ => rfl
  | [], _ :: _, _, _, h => by simp at h
  | _ :: _, [], _, _, h => by simp at h
  | a :: as, b :: bs, h1, h2, h => by
      simp only [List.map_cons, List.cons.injEq] at h
      have hab : a = b :=
        digitChar_inj a (h1 a (by simp)) b (h2 b (by simp)) h.1
      have hrest := map_digitChar_inj as bs
        (fun d hd => h1 d (by simp [hd])) (fun d hd => h2 d (by simp [hd])) h.2
      rw [hab, hrest]

/-- Python's decimal rendering is injective on positive numbers. -/
theorem pyRepr_inj {m n : Nat} (hm : 1 ≤ m) (hn : 1 ≤ n)
    (h : pyRepr m = pyRepr n) : m = n := by
  rw [pyRepr, pyRepr, if_neg (by omega), if_neg (by omega)] at h
  have hd : (digitsRev m m).reverse.map Nat.digitChar =
      (digitsRev n n).reverse.map Nat.digitChar := congrArg String.data h
  have hrev : (digitsRev m m).reverse = (digitsRev n n).reverse :=
    map_digitChar_inj _ _
      (fun d hd' => digitsRev_all_lt10 m m d (List.mem_reverse.mp hd'))
      (fun d hd' => digitsRev_all_lt10 n n d (List.mem_reverse.mp hd')) hd
  have hdig : digitsRev m m = digitsRev n n := List.reverse_injective hrev
  calc m = ofDigits10 (digitsRev m m) := (ofDigits10_digitsRev m m hm le_rfl).symm
    _ = ofDigits10 (digitsRev n n) := by rw [hdig]
    _ = n := ofDigits10_digitsRev n n hn le_rfl

/-- Distinct positive counters give distinct candidate archive names. -/
theorem candName_inj (stem sfx : String) {a b : Nat} (ha : 1 ≤ a) (hb : 1 ≤ b)
    (h : candName stem sfx a = candName stem sfx b) : a = b := by
  apply pyRepr_inj ha hb
  apply string_data_inj
  have hd := congrArg String.data h
  simp only [candName, String.data_append, List.append_assoc] at hd
  exact List.append_cancel_right (List.append_cancel_left (List.append_cancel_left hd))

/-- A name returned by the candidate loop is not among the existing
archive entries. -/
theorem destLoop_some_not_mem (ex : List String) (stem sfx : String) :
    ∀ f c d, destLoop ex stem sfx f c = some d → d ∉ ex := by
  intro f
  induction f with
  | zero => intro c d h; simp [destLoop] at h
  | succ f ih =>
      intro c d h
      rw [destLoop] at h
      split at h
      · exact ih (c + 1) d h
      · next hmem =>
          injection h with h'
          exact h' ▸ hmem

/-- If the candidate loop exhausts its fuel, then every candidate it
visited is an existing archive entry. -/
theorem destLoop_none_mem (ex : List String) (stem sfx : String) :
    ∀ f c, destLoop ex stem sfx f c = none →
      ∀ i, i < f → candName stem sfx (c + i) ∈ ex := by
  intro f
  induction f with
  | zero => intro c _ i hi; omega
  | succ f ih =>
      intro c h i hi
      rw [destLoop] at h
      split at h
      · next hmem =>
          cases i with
          | zero => simpa using hmem
          | succ j =>
              have hj := ih (c + 1) h j (by omega)
              have heq : c + 1 + j = c + (j + 1) := by omega
              rwa [heq] at hj
      · simp at h

/-- With fuel `existing.length + 1`, the candidate loop always finds a
fresh name: the candidates are pairwise distinct, so they cannot all be
among `existing`. -/
theorem destLoop_total (ex : List String) (stem sfx : String) :
    ∃ d, destLoop ex stem sfx (ex.length + 1) 1 = some d := by
  cases hh : destLoop ex stem sfx (ex.length + 1) 1 with
  | some d => exact ⟨d, rfl⟩
  | none =>
      exfalso
      have hmem := destLoop_none_mem ex stem sfx (ex.length + 1) 1 hh
      have hinj : Function.Injective (fun i : Nat => candName stem sfx (1 + i)) := by
        intro i j hij
        have := candName_inj stem sfx (a := 1 + i) (b := 1 + j) (by omega) (by omega) hij
        omega
      have hnodup :
          ((List.range (ex.length + 1)).map fun i => candName stem sfx (1 + i)).Nodup :=
        List.Nodup.map hinj (List.nodup_range (ex.length + 1))
      have hsub :
          ((List.range (ex.length + 1)).map fun i => candName stem sfx (1 + i)) ⊆ ex := by
        intro x hx
        obtain ⟨i, hi, rfl⟩ := List.mem_map.mp hx
        exact hmem i (List.mem_range.mp hi)
      have hle := (hnodup.subperm hsub).length_le
      simp only [List.length_map, List.length_range] at hle
      omega

/-- C1: the ingestor's classification assigns kind todo for the
case-sensitive prefixes TODO: and Task:, kind idea for the prefix IDEA: or
presence of the idea glyph, kind link for text beginning with http or
containing www., and kind note otherwise, with the branches tried in that
order; in particular the four example texts classify as stated. -/
theorem C1_classification :
    (∀ t : String,
      (strStarts t "TODO:" = true ∨ strStarts t "Task:" = true) →
        classify t = "todo") ∧
    (∀ t : String, strStarts t "TODO:" = false → strStarts t "Task:" = false →
      (strStarts t "IDEA:" = true ∨ strHasSub t "💡" = true) →
        classify t = "idea") ∧
    (∀ t : String, strStarts t "TODO:" = false → strStarts t "Task:" = false →
      strStarts t "IDEA:" = false → strHasSub t "💡" = false →
      (strStarts t "http" = true ∨ strHasSub t "www." = true) →
        classify t = "link") ∧
    (∀ t : String, strStarts t "TODO:" = false → strStarts t "Task:" = false →
      strStarts t "IDEA:" = false → strHasSub t "💡" = false →
      strStarts t "http" = false → strHasSub t "www." = false →
        classify t = "note") ∧
    classify "TODO: buy milk" = "todo" ∧
    classify "IDEA: rewrite in Rust" = "idea" ∧
    classify "https://example.com" = "link" ∧
    classify "just a thought" = "note" := by
  refine ⟨?_, ?_, ?_, ?_, by decide, by decide, by decide, by decide⟩
  · intro t h
    rcases h with h | h <;> simp [classify, h]
  · intro t h1 h2 h
    rcases h with h | h <;> simp [classify, h1, h2, h]
  · intro t h1 h2 h3 h4 h
    rcases h with h | h <;> simp [classify, h1, h2, h3, h4, h]
  · intro t h1 h2 h3 h4 h5 h6
    simp [classify, h1, h2, h3, h4, h5, h6]

/-- C1 witness: the classification theorem applied at concrete texts. -/
theorem C1_classification_witness :
    classify "Task: call the plumber" = "todo" ∧
    classify "see www.example.org for details" = "link" :=
  ⟨C1_classification.1 "Task: call the plumber" (Or.inr (by decide)),
   C1_classification.2.2.1 "see www.example.org for details"
     (by decide) (by decide) (by decide) (by decide) (Or.inr (by decide))⟩

/-- C4 counterexample: the formatter is not a function of
`(kind, body, context)` alone — two invocations with identical arguments
at clock readings one second apart render different documents, because
`datetime.now()` is embedded in the output. -/
theorem C4_counterexample :
    format_content_for_obsidian "x" "note" ""
        { year := 2024, month := 1, day := 1, hour := 12, minute := 0, second := 0 } ≠
      format_content_for_obsidian "x" "note" ""
        { year := 2024, month := 1, day := 1, hour := 12, minute := 0, second := 1 } := by
  decide

/-- C4 amended: the formatter is deterministic in
`(kind, body, context, clock reading)` — it depends on the clock only
through the two rendered timestamp strings, so invocations whose clock
readings render identically produce identical documents. -/
theorem C4_amended_formatter_determinism :
    ∀ content ctype ctx t1 t2,
      isoformat t1 = isoformat t2 → fmtDateHM t1 = fmtDateHM t2 →
      format_content_for_obsidian content ctype ctx t1 =
        format_content_for_obsidian content ctype ctx t2 := by
  intro content ctype ctx t1 t2 h1 h2
  simp only [format_content_for_obsidian, h1, h2]

/-- C4 witness: the amended determinism theorem applied at a concrete
input. -/
theorem C4_amended_witness :
    format_content_for_obsidian "x" "todo" "c"
        { year := 2024, month := 1, day := 1, hour := 12, minute := 0, second := 0 } =
      format_content_for_obsidian "x" "todo" "c"
        { year := 2024, month := 1, day := 1, hour := 12, minute := 0, second := 0 } :=
  C4_amended_formatter_determinism "x" "todo" "c" _ _ rfl rfl

/-- C5: the formatter renders a non-empty document for every kind string
(so in particular for the fixed enumeration and any unrecognized kind)
without failing, and every kind other than the three specially templated
ones is rendered by the explicit default branch, identically to a generic
note. -/
theorem C5_formatter_totality :
    ∀ content ctype ctx now,
      format_content_for_obsidian content ctype ctx now ≠ "" ∧
      (ctype ≠ "todo" → ctype ≠ "voice_transcription" → ctype ≠ "idea" →
        format_content_for_obsidian content ctype ctx now =
          format_content_for_obsidian content "note" ctx now) := by
  intro content ctype ctx now
  constructor
  · unfold format_content_for_obsidian
    repeat' split
    all_goals repeat' apply append_ne_empty_left
    all_goals decide
  · intro h1 h2 h3
    have e1 : (ctype == "todo") = false := by simp [h1]
    have e2 : (ctype == "voice_transcription") = false := by simp [h2]
    have e3 : (ctype == "idea") = false := by simp [h3]
    have n1 : (("note" : String) == "todo") = false := by decide
    have n2 : (("note" : String) == "voice_transcription") = false := by decide
    have n3 : (("note" : String) == "idea") = false := by decide
    unfold format_content_for_obsidian
    rw [e1, e2, e3, n1, n2, n3]

/-- C5 witness: the totality theorem applied at the unrecognized kind
`link`. -/
theorem C5_formatter_totality_witness :
    format_content_for_obsidian "body" "link" "ctx" ⟨2024, 1, 1, 12, 0, 0⟩ ≠ "" ∧
    format_content_for_obsidian "body" "link" "ctx" ⟨2024, 1, 1, 12, 0, 0⟩ =
      format_content_for_obsidian "body" "note" "ctx" ⟨2024, 1, 1, 12, 0, 0⟩ :=
  ⟨(C5_formatter_totality "body" "link" "ctx" ⟨2024, 1, 1, 12, 0, 0⟩).1,
   (C5_formatter_totality "body" "link" "ctx" ⟨2024, 1, 1, 12, 0, 0⟩).2
     (by decide) (by decide) (by decide)⟩

/-- C6: the ingestor's record filename is only
`{kind}_{YYYYMMDD_HHMMSS}.json`, with second resolution and no counter or
sub-second entropy, so two distinct same-kind messages captured in the
same clock second receive the identical filename — the second write
overwrites the first. -/
theorem C6_filename_collision :
    classify "buy bread" = "note" ∧
    classify "water plants" = "note" ∧
    handle_text_filename "buy bread" ⟨2024, 1, 1, 12, 0, 0⟩ =
      "note_20240101_120000.json" ∧
    handle_text_filename "water plants" ⟨2024, 1, 1, 12, 0, 0⟩ =
      "note_20240101_120000.json" := by
  refine ⟨by decide, by decide, by decide, by decide⟩

/-- C2 counterexample: the voice handler has no try/except at its boundary
— when the per-record processing step throws (here: the transcriber call
raises), the exception escapes `on_created` instead of being caught and
logged. -/
theorem C2_counterexample_voice_raises :
    process_voice_file
        { metaExists := true, metaLoadFails := false,
          transcribeOutcome := Except.error (), outputWriteFails := false,
          archiveRenameFails := false } = HOutcome.raises true := by
  rfl

/-- C2 amended: the text handler and the ready-document handler catch all
per-record failures at the handler boundary, return without raising, and
leave a failed record in its stage directory; the voice handler does not —
an exception from its processing step (metadata load, transcriber call or
output write) escapes the callback, though the record does remain in its
stage directory. -/
theorem C2_amended_handler_boundary :
    (∀ e : TextEnv, ∃ keeps, process_text_file e = HOutcome.returns keeps) ∧
    (∀ e : TextEnv, e.loadFails = true ∨ e.writeFails = true →
      process_text_file e = HOutcome.returns true) ∧
    (∀ e : PubEnv, (move_to_obsidian e).raised = false) ∧
    (∀ e : PubEnv, e.copyFails = true → (move_to_obsidian e).srcInReady = true) ∧
    (∀ e : VoiceEnv, e.transcribeOutcome = Except.error () →
      process_voice_file e = HOutcome.raises true) := by
  refine ⟨?_, ?_, ?_, ?_, ?_⟩
  · intro e
    rcases e with ⟨l, w, a⟩
    cases l <;> cases w <;> cases a <;> exact ⟨_, rfl⟩
  · intro e h
    rcases e with ⟨l, w, a⟩
    rcases h with h | h <;> simp only at h <;> subst h <;>
      first
        | (cases w <;> cases a <;> rfl)
        | (cases l <;> cases a <;> rfl)
  · intro e
    rcases e with ⟨c, m, r⟩
    cases c <;> cases m <;> cases r <;> rfl
  · intro e h
    rcases e with ⟨c, m, r⟩
    simp only at h
    subst h
    cases m <;> cases r <;> rfl
  · intro e h2
    rcases e with ⟨me, ml, t, ow, ar⟩
    simp only at h2
    subst h2
    cases me <;> cases ml <;> rfl

/-- C2 witness: the amended theorem applied at concrete environments. -/
theorem C2_amended_witness :
    process_text_file
        { loadFails := true, writeFails := false, archiveRenameFails := false } =
      HOutcome.returns true ∧
    (move_to_obsidian
        { copyFails := true, mkdirFails := false, renameFails := false }).srcInReady =
      true ∧
    process_voice_file
        { metaExists := false, metaLoadFails := false,
          transcribeOutcome := Except.error (), outputWriteFails := false,
          archiveRenameFails := false } = HOutcome.raises true :=
  ⟨C2_amended_handler_boundary.2.1 _ (Or.inl rfl),
   C2_amended_handler_boundary.2.2.2.1 _ rfl,
   C2_amended_handler_boundary.2.2.2.2 _ rfl⟩

/-- C3 counterexample: a failing OGG conversion makes `transcribe` raise
rather than return a failure value, and an engine failure and a missing
output artifact both return the same `None` — the three causes are not
distinguished by any typed failure value. -/
theorem C3_counterexample :
    transcribe
        { suffixIsOgg := true, ffmpegMissing := false, ffmpegFails := true,
          whisperFails := false, txtExists := true, txtContent := "hi" } =
      Except.error PyExc.calledProcessError ∧
    transcribe
        { suffixIsOgg := false, ffmpegMissing := false, ffmpegFails := false,
          whisperFails := true, txtExists := true, txtContent := "hi" } =
      Except.ok none ∧
    transcribe
        { suffixIsOgg := false, ffmpegMissing := false, ffmpegFails := false,
          whisperFails := false, txtExists := false, txtContent := "hi" } =
      Except.ok none :=
  ⟨rfl, rfl, rfl⟩

/-- C3 amended: on success `transcribe` returns the stripped text; a
non-zero engine exit or a missing output artifact both return Python's
`None` — a single undifferentiated failure value, not raising — while a
failure of the external conversion tool (non-zero FFmpeg exit or missing
FFmpeg) raises out of `transcribe` instead of returning a failure value. -/
theorem C3_amended_transcribe :
    (∀ e : TransEnv,
      (e.suffixIsOgg = false ∨ (e.ffmpegMissing = false ∧ e.ffmpegFails = false)) →
      e.whisperFails = false → e.txtExists = true →
      transcribe e = Except.ok (some (pyStrip e.txtContent))) ∧
    (∀ e : TransEnv,
      (e.suffixIsOgg = false ∨ (e.ffmpegMissing = false ∧ e.ffmpegFails = false)) →
      e.whisperFails = true → transcribe e = Except.ok none) ∧
    (∀ e : TransEnv,
      (e.suffixIsOgg = false ∨ (e.ffmpegMissing = false ∧ e.ffmpegFails = false)) →
      e.whisperFails = false → e.txtExists = false →
      transcribe e = Except.ok none) ∧
    (∀ e : TransEnv, e.suffixIsOgg = true → e.ffmpegMissing = false →
      e.ffmpegFails = true →
      transcribe e = Except.error PyExc.calledProcessError) ∧
    (∀ e : TransEnv, e.suffixIsOgg = true → e.ffmpegMissing = true →
      transcribe e = Except.error PyExc.fileNotFoundError) := by
  refine ⟨?_, ?_, ?_, ?_, ?_⟩
  · intro e hc h1 h2
    rcases e with ⟨o, fm, ff, w, tx, tc⟩
    simp only at hc h1 h2
    subst h1; subst h2
    rcases hc with h | ⟨h, h'⟩ <;> subst_vars <;>
      simp [transcribe, convert_ogg_to_wav]
  · intro e hc h1
    rcases e with ⟨o, fm, ff, w, tx, tc⟩
    simp only at hc h1
    subst h1
    rcases hc with h | ⟨h, h'⟩ <;> subst_vars <;>
      simp [transcribe, convert_ogg_to_wav]
  · intro e hc h1 h2
    rcases e with ⟨o, fm, ff, w, tx, tc⟩
    simp only at hc h1 h2
    subst h1; subst h2
    rcases hc with h | ⟨h, h'⟩ <;> subst_vars <;>
      simp [transcribe, convert_ogg_to_wav]
  · intro e h1 h2 h3
    rcases e with ⟨o, fm, ff, w, tx, tc⟩
    simp only at h1 h2 h3
    subst_vars
    simp [transcribe, convert_ogg_to_wav]
  · intro e h1 h2
    rcases e with ⟨o, fm, ff, w, tx, tc⟩
    simp only at h1 h2
    subst_vars
    simp [transcribe, convert_ogg_to_wav]

/-- C3 witness: the amended theorem applied at concrete environments. -/
theorem C3_amended_witness :
    transcribe
        { suffixIsOgg := false, ffmpegMissing := false, ffmpegFails := false,
          whisperFails := false, txtExists := true, txtContent := " hello " } =
      Except.ok (some (pyStrip " hello ")) ∧
    transcribe
        { suffixIsOgg := true, ffmpegMissing := false, ffmpegFails := true,
          whisperFails := false, txtExists := true, txtContent := "x" } =
      Except.error PyExc.calledProcessError :=
  ⟨C3_amended_transcribe.1 _ (Or.inl rfl) rfl rfl,
   C3_amended_transcribe.2.2.2.1 _ rfl rfl rfl⟩

/-- C7 counterexample: the voice handler's `start_monitoring` performs no
drain pass — with a pending voice file already present, nothing is
processed before event-based watching begins. -/
theorem C7_counterexample :
    MonEvent.processed "voice_20240101_120000.ogg" ∉
      voice_start_monitoring ["voice_20240101_120000.ogg"] := by
  decide

/-- C7 amended: only the text handler's `start_monitoring` performs a
synchronous drain pass (processing every matching pending entry before the
watcher starts); the voice handler and the ready-document handler start
watching without processing any pre-existing entry. -/
theorem C7_amended_drain :
    (∀ pending, ∃ l, text_start_monitoring pending = l ++ [MonEvent.watchStarted] ∧
      ∀ n ∈ pending, strEnds n ".json" = true → MonEvent.processed n ∈ l) ∧
    (∀ pending, ¬ ∃ n, MonEvent.processed n ∈ voice_start_monitoring pending) ∧
    (∀ pending, ¬ ∃ n, MonEvent.processed n ∈ file_manager_start_monitoring pending) := by
  refine ⟨?_, ?_, ?_⟩
  · intro pending
    refine ⟨(pending.filter (fun n => strEnds n ".json")).map MonEvent.processed,
      rfl, ?_⟩
    intro n hn hj
    exact List.mem_map.mpr ⟨n, List.mem_filter.mpr ⟨hn, hj⟩, rfl⟩
  · intro pending h
    obtain ⟨n, hn⟩ := h
    simp [voice_start_monitoring] at hn
  · intro pending h
    obtain ⟨n, hn⟩ := h
    simp [file_manager_start_monitoring] at hn

/-- C7 witness: the amended theorem applied at concrete pending
directories. -/
theorem C7_amended_witness :
    (∃ l, text_start_monitoring ["a.json", "b.txt"] = l ++ [MonEvent.watchStarted] ∧
      ∀ n ∈ ["a.json", "b.txt"], strEnds n ".json" = true →
        MonEvent.processed n ∈ l) ∧
    ¬ ∃ n, MonEvent.processed n ∈ voice_start_monitoring ["a.ogg"] :=
  ⟨C7_amended_drain.1 ["a.json", "b.txt"], C7_amended_drain.2.1 ["a.ogg"]⟩

/-- C8: the Vault Publisher archives a ready document only after a
successful copy into the vault — if the copy fails, the source is not
archived and remains in the ready directory, and an archived source
implies the copy succeeded. -/
theorem C8_publisher_copy_before_archive :
    ∀ e : PubEnv,
      (e.copyFails = true →
        (move_to_obsidian e).copied = false ∧
          (move_to_obsidian e).srcInReady = true) ∧
      ((move_to_obsidian e).srcInReady = false →
        (move_to_obsidian e).copied = true ∧ e.copyFails = false) := by
  intro e
  rcases e with ⟨c, m, r⟩
  cases c <;> cases m <;> cases r <;> exact ⟨by decide, by decide⟩

/-- C8 witness: the theorem applied at a concrete environment where the
copy fails. -/
theorem C8_publisher_witness :
    (move_to_obsidian
        { copyFails := true, mkdirFails := false, renameFails := false }).copied =
      false ∧
    (move_to_obsidian
        { copyFails := true, mkdirFails := false, renameFails := false }).srcInReady =
      true :=
  (C8_publisher_copy_before_archive
    { copyFails := true, mkdirFails := false, renameFails := false }).1 rfl

/-- C9: archiving never overwrites an existing archive entry — a missing
source is a silent no-op, the chosen destination is never among the
existing entries (so existing archive files are left unchanged), the
source's own name is used when free, and a destination always exists
because the counter suffixes `_1`, `_2`, ... are pairwise distinct. -/
theorem C9_archive_no_overwrite :
    ∀ (existing : List String) (name stem sfx : String),
      move_processed_file false existing name stem sfx = none ∧
      (∀ d, move_processed_file true existing name stem sfx = some d →
        d ∉ existing) ∧
      (name ∉ existing →
        move_processed_file true existing name stem sfx = some name) ∧
      ∃ d, move_processed_file true existing name stem sfx = some d := by
  intro ex name stem sfx
  refine ⟨rfl, ?_, ?_, ?_⟩
  · intro d h
    rw [move_processed_file] at h
    split at h
    · exact destLoop_some_not_mem ex stem sfx (ex.length + 1) 1 d h
    · next hmem =>
        injection h with h'
        exact h' ▸ hmem
  · intro hname
    rw [move_processed_file, if_neg hname]
  · by_cases hname : name ∈ ex
    · obtain ⟨d, hd⟩ := destLoop_total ex stem sfx
      exact ⟨d, by rw [move_processed_file, if_pos hname]; exact hd⟩
    · exact ⟨name, by rw [move_processed_file, if_neg hname]⟩

/-- C9 witness: the theorem applied at concrete archive states, including
one where the loop must advance the counter twice. -/
theorem C9_archive_witness :
    move_processed_file false ["a.json"] "a.json" "a" ".json" = none ∧
    "a_2.json" ∉ ["a.json", "a_1.json"] ∧
    move_processed_file true ["b.json"] "a.json" "a" ".json" = some "a.json" :=
  ⟨(C9_archive_no_overwrite ["a.json"] "a.json" "a" ".json").1,
   (C9_archive_no_overwrite ["a.json", "a_1.json"] "a.json" "a" ".json").2.1
     "a_2.json" (by decide),
   (C9_archive_no_overwrite ["b.json"] "a.json" "a" ".json").2.2.1 (by decide)⟩

/-- C10: the pending-content query returns at most 10 items; the items are
sorted newest-first by the timestamp field; every returned item is a
matching record from the scanned directories; and the count field reports
the total number of matching records, which can exceed the number of items
returned. -/
theorem C10_pending_query (ct : String) (incoming processed : List PendingRec) :
    (get_pending_content ct incoming processed).2.length ≤ 10 ∧
    List.Sorted newestFirst (get_pending_content ct incoming processed).2 ∧
    (∀ r ∈ (get_pending_content ct incoming processed).2,
      recMatches ct r = true ∧ r ∈ incoming ++ processed) ∧
    (get_pending_content ct incoming processed).1 =
      ((incoming ++ processed).filter (recMatches ct)).length := by
  refine ⟨?_, ?_, ?_, rfl⟩
  · exact List.length_take_le 10 _
  · exact List.Pairwise.sublist (List.take_sublist 10 _)
      (List.sorted_insertionSort newestFirst _)
  · intro r hr
    have h1 : r ∈ List.insertionSort newestFirst
        ((incoming ++ processed).filter (recMatches ct)) :=
      List.take_subset 10 _ hr
    have h2 : r ∈ (incoming ++ processed).filter (recMatches ct) :=
      (List.mem_insertionSort newestFirst).mp h1
    have h3 := List.mem_filter.mp h2
    exact ⟨h3.2, h3.1⟩

/-- C10 witness: the query theorem applied at a concrete record set. -/
theorem C10_pending_witness :
    recMatches "all" ⟨"note", "2024-01-01T10:00:00"⟩ = true ∧
    (⟨"note", "2024-01-01T10:00:00"⟩ : PendingRec) ∈
      [(⟨"note", "2024-01-01T10:00:00"⟩ : PendingRec)] ++ ([] : List PendingRec) :=
  (C10_pending_query "all" [⟨"note", "2024-01-01T10:00:00"⟩] []).2.2.1
    ⟨"note", "2024-01-01T10:00:00"⟩ (by decide)
